import Mathlib

/-!
Shallow embedding of the flight-analytics aggregation core of
`UseCase2_DeltaBusinessCase.py`: a table is a `List Row`, pandas column
arithmetic is exact rational arithmetic, and each source function becomes a
Lean function of the same name.  Chart-construction code (colors, titles,
axis styling) is not modelled except where it determines the data contract
(the categorical weekday axis order of `flight_volume_by_day`).
-/

/-- The seven continent names produced by `pycountry_convert`'s
`convert_continent_code_to_continent_name` (the external classifier library
used by `country_to_continent`). -/
inductive Continent where
  | africa
  | antarctica
  | asia
  | europe
  | northAmerica
  | oceania
  | southAmerica
deriving DecidableEq, Repr

/-- Display name of a continent, as returned by `pycountry_convert`. -/
def Continent.name : Continent → String
  | .africa => "Africa"
  | .antarctica => "Antarctica"
  | .asia => "Asia"
  | .europe => "Europe"
  | .northAmerica => "North America"
  | .oceania => "Oceania"
  | .southAmerica => "South America"

/-- `continent_name.lower()`: the lowercased display name, precomputed for
the seven constant continent names. -/
def Continent.lowerName : Continent → String
  | .africa => "africa"
  | .antarctica => "antarctica"
  | .asia => "asia"
  | .europe => "europe"
  | .northAmerica => "north america"
  | .oceania => "oceania"
  | .southAmerica => "south america"

/-- A `flight_date` cell.  In the source the column may hold either a raw
date string (as loaded from CSV) or a `datetime64` value (after
`pd.to_datetime`); both denote the same calendar date, here an ordinal
number of days.  The two constructors keep the representations distinct so
in-place dtype conversion is observable. -/
inductive DateCell where
  | raw (d : Nat)
  | ts (d : Nat)
deriving DecidableEq, Repr

/-- `pd.to_datetime` applied to one cell: parses a raw date string into a
datetime value and leaves datetime values unchanged. -/
def DateCell.toDatetime : DateCell → DateCell
  | .raw d => .ts d
  | .ts d => .ts d

/-- The calendar date denoted by a cell (`.dt.date` in the source, once the
cell is datetime). -/
def DateCell.dateVal : DateCell → Nat
  | .raw d => d
  | .ts d => d

/-- `True` exactly for datetime-typed cells. -/
def DateCell.isTs : DateCell → Bool
  | .raw _ => false
  | .ts _ => true

/-- One `FlightRecord` row of the flights table.  `dep_delay` is signed
minutes as an exact rational.  `hour` is the column added by
`extract_hour`: `none` models an unparsable `scheduled_departure_datetime`
(pandas `NaT`, whose `.dt.hour` is `NaN` and which pandas `groupby` drops
from group keys). -/
structure Row where
  flight_date : DateCell
  hour : Option Nat
  airline : String
  dep_iata : String
  dep_airport : String
  arr_iata : String
  arr_airport : String
  arr_country : String
  dep_delay : ℚ
  flight_status : String
deriving DecidableEq, Repr

/-- Group keys appearing in a list of rows, each once.  (`List.dedup` keeps
first occurrences; pandas `groupby(sort=True)` emits groups in sorted key
order instead, but every property proved below is invariant under the order
in which groups are emitted.) -/
def groupKeys {κ : Type} [DecidableEq κ] (rows : List Row) (key : Row → κ) :
    List κ :=
  (rows.map key).dedup

/-- pandas `groupby`: one `(key, member rows)` pair per distinct key. -/
def pdGroupBy {κ : Type} [DecidableEq κ] (rows : List Row) (key : Row → κ) :
    List (κ × List Row) :=
  (groupKeys rows key).map (fun k => (k, rows.filter (fun r => key r = k)))

/-- Rows that survive the `flight_status != "cancelled" and != "diverted"`
filter every delay-based aggregator applies first. -/
def operationalRows (flights_df : List Row) : List Row :=
  flights_df.filter
    (fun r => r.flight_status ≠ "cancelled" ∧ r.flight_status ≠ "diverted")

/-- One output row of `aggregate_delay_metric`. -/
structure DelayMetricRow (κ : Type) where
  key : κ
  ontime_count : Nat
  total_flights : Nat
  pct_ontime : ℚ
  pct_delay : ℚ
deriving DecidableEq, Repr

/-- `aggregate_delay_metric(flights_df, groupby_col, arr_iata)`: drop
cancelled/diverted rows, optionally restrict to a set of arrival IATA
codes, mark `on_time = dep_delay < 15`, group, and compute per-group
`pct_ontime = 100 * ontime_count / total_flights`,
`pct_delay = 100 - pct_ontime`.  The group-by column list is abstracted as
a key function into an arbitrary decidable type. -/
def aggregate_delay_metric {κ : Type} [DecidableEq κ] (flights_df : List Row)
    (groupby_col : Row → κ) (arr_iata : Option (List String) := none) :
    List (DelayMetricRow κ) :=
  let flights_copy := operationalRows flights_df
  let flights_copy := match arr_iata with
    | some codes => flights_copy.filter (fun r => r.arr_iata ∈ codes)
    | none => flights_copy
  (pdGroupBy flights_copy groupby_col).map (fun g =>
    let ontime : Nat := (g.2.filter (fun r => r.dep_delay < 15)).length
    let total : Nat := g.2.length
    let pct : ℚ := (ontime : ℚ) / (total : ℚ) * 100
    ⟨g.1, ontime, total, pct, 100 - pct⟩)

/-- The bin labels of `delays_heatmap`, in the order they are passed to
`pd.cut` (which is also the categorical column order of the unstacked
count matrix). -/
def bin_labels : List String :=
  ["Early/On time", "0–15 min", "15–30 min", "30–60 min", "1–2 hrs", "2+ hrs"]

/-- `pd.cut(dep_delay, bins=[-inf,0,15,30,60,120,inf], labels, right=True)`
applied to one delay value: each bin is half-open on the left and closed on
the right. -/
def delay_bin (d : ℚ) : String :=
  if d ≤ 0 then "Early/On time"
  else if d ≤ 15 then "0–15 min"
  else if d ≤ 30 then "15–30 min"
  else if d ≤ 60 then "30–60 min"
  else if d ≤ 120 then "1–2 hrs"
  else "2+ hrs"

/-- One row of the proportion matrix of `delays_heatmap`: a dimension value
together with its `(bin label, fraction)` pairs in bin-column order. -/
structure HeatmapRow where
  var_value : String
  props : List (String × ℚ)
deriving DecidableEq, Repr

/-- The data computation of `delays_heatmap(flights_df, var, airline)`:
filter to the airline and operational rows, bin each `dep_delay`, count per
`(var, delay_bin)` with every categorical bin present (`observed=False`,
`unstack(fill_value=0)`), and divide each row of counts by its row sum. -/
def delays_heatmap (flights_df : List Row) (var : Row → String)
    (airline : String) : List HeatmapRow :=
  let flights_copy :=
    (flights_df.filter (fun r => r.airline = airline)) |> operationalRows
  (groupKeys flights_copy var).map (fun v =>
    let rows := flights_copy.filter (fun r => var r = v)
    let counts := bin_labels.map (fun lbl =>
      (lbl, ((rows.filter (fun r => delay_bin r.dep_delay = lbl)).length : ℚ)))
    let rowSum : ℚ := (counts.map (fun p => p.2)).sum
    ⟨v, counts.map (fun p => (p.1, p.2 / rowSum))⟩)

/-- One output row of `relative_delay`: a departure airport with its mean
delay and its ratio to the airline-wide mean. -/
structure RelDelayRow where
  dep_airport : String
  mean_delay : ℚ
  delay_ratio : ℚ
deriving DecidableEq, Repr

/-- Arithmetic mean of the `dep_delay` column of a list of rows (pandas
`.mean()`), as an exact rational; the empty mean (pandas `NaN`) is the
junk value `0 / 0 = 0`. -/
def meanDelay (rows : List Row) : ℚ :=
  (rows.map (fun r => r.dep_delay)).sum / (rows.length : ℚ)

/-- The data computation of `relative_delay(flights_df, airline)`: filter
to the airline and operational rows, compute the global mean delay, and
per departure airport the mean delay and its ratio to the global mean.
Returns the global mean together with the per-airport table. -/
def relative_delay (flights_df : List Row) (airline : String) :
    ℚ × List RelDelayRow :=
  let flights_copy :=
    (flights_df.filter (fun r => r.airline = airline)) |> operationalRows
  let global_mean := meanDelay flights_copy
  (global_mean,
    (pdGroupBy flights_copy (fun r => r.dep_airport)).map (fun g =>
      let m := meanDelay g.2
      ⟨g.1, m, m / global_mean⟩))

/-- One row of the route table of `top_delayed_routes`. -/
structure RouteRow where
  dep_iata : String
  dep_airport : String
  arr_iata : String
  arr_airport : String
  flight_count : Nat
  delay_count : Nat
  delay_rate : ℚ
deriving DecidableEq, Repr

instance : Inhabited RouteRow := ⟨⟨"", "", "", "", 0, 0, 0⟩⟩

/-- pandas `.median()` over a column of natural numbers: sort ascending and
take the middle element, or the average of the two middle elements when the
count is even.  The empty median (pandas `NaN`, which compares false
against everything) is represented by `0`; it is only ever compared against
flight counts of an equally empty route table. -/
def pdMedian (l : List Nat) : ℚ :=
  let s := l.mergeSort (fun a b => a ≤ b)
  let n := s.length
  if n = 0 then 0
  else if n % 2 = 1 then (s.getD (n / 2) 0 : ℚ)
  else ((s.getD (n / 2 - 1) 0 : ℚ) + (s.getD (n / 2) 0 : ℚ)) / 2

/-- The rows of `top_delayed_routes` that survive its airline, status and
domestic/international filters. -/
def routeRows (flights_df : List Row) (airline : String) (domestic : Bool) :
    List Row :=
  let flights_copy :=
    (flights_df.filter (fun r => r.airline = airline)) |> operationalRows
  flights_copy.filter (fun r =>
    if domestic then r.arr_country = "US" else r.arr_country ≠ "US")

/-- The grouped route table of `top_delayed_routes` before the median
filter: per `(dep_iata, dep_airport, arr_iata, arr_airport)` route, its
`flight_count`, its `delay_count` (rows with `dep_delay > 60`) and
`delay_rate = delay_count / flight_count`. -/
def route_table (flights_df : List Row) (airline : String)
    (domestic : Bool) : List RouteRow :=
  (pdGroupBy (routeRows flights_df airline domestic)
      (fun r => (r.dep_iata, r.dep_airport, r.arr_iata, r.arr_airport))).map
    (fun g =>
      let fc : Nat := g.2.length
      let dc : Nat := (g.2.filter (fun r => 60 < r.dep_delay)).length
      ⟨g.1.1, g.1.2.1, g.1.2.2.1, g.1.2.2.2, fc, dc, (dc : ℚ) / (fc : ℚ)⟩)

/-- `median_flight_count`: the median of `flight_count` over the full
filtered+country-scoped route table. -/
def median_flight_count (flights_df : List Row) (airline : String)
    (domestic : Bool) : ℚ :=
  pdMedian ((route_table flights_df airline domestic).map
    (fun r => r.flight_count))

/-- The candidate routes after the median threshold
(`flight_count > median_flight_count`), sorted descending by `delay_rate`
(`sort_values(by="delay_rate", ascending=False)`). -/
def sorted_candidates (flights_df : List Row) (airline : String)
    (domestic : Bool) : List RouteRow :=
  let med := median_flight_count flights_df airline domestic
  ((route_table flights_df airline domestic).filter
      (fun r => med < (r.flight_count : ℚ))).mergeSort
    (fun a b => b.delay_rate ≤ a.delay_rate)

/-- `nlargest(10, "delay_rate", keep="all")` applied to a table already
sorted descending by `delay_rate`: take the whole table when it has at most
10 rows, otherwise the maximal prefix of rows whose rate is at least the
10th-ranked rate (so every row tied with the 10th is kept). -/
def nlargest10 (sorted : List RouteRow) : List RouteRow :=
  if sorted.length ≤ 10 then sorted
  else
    let threshold := (sorted.getD 9 default).delay_rate
    sorted.takeWhile (fun r => threshold ≤ r.delay_rate)

/-- `top_delayed_routes(flights_df, airline, domestic)`: the median-
thresholded route table sorted descending by delay rate, cut to the top 10
with ties. -/
def top_delayed_routes (flights_df : List Row) (airline : String)
    (domestic : Bool := true) : List RouteRow :=
  nlargest10 (sorted_candidates flights_df airline domestic)

/-- `select_date(flights_df, start_date, end_date)`.  The first statement
of the source body is
`flights_df["flight_date"] = pd.to_datetime(flights_df["flight_date"])`,
an in-place column assignment on the caller's dataframe; the value of the
caller's binding after the call is therefore returned as the first
component, and the filtered subset as the second. -/
def select_date (flights_df : List Row) (start_date end_date : Nat) :
    List Row × List Row :=
  let flights_df := flights_df.map
    (fun r => { r with flight_date := r.flight_date.toDatetime })
  let filtered_df :=
    if start_date = end_date then
      flights_df.filter (fun r => r.flight_date.dateVal = start_date)
    else
      flights_df.filter (fun r =>
        start_date ≤ r.flight_date.dateVal ∧ r.flight_date.dateVal ≤ end_date)
  (flights_df, filtered_df)

/-- `country_to_continent(country_name)`.  The
`pycountry` lookup chain (name → alpha-2 → continent code → continent
name) is abstracted as an injected `lookup` returning `none` when any step
of the chain raises; the bare `except` maps that case to `"other"`.  On a
successful lookup the source returns `"usa"` when the input equals `"US"`
and the lowercased continent name otherwise. -/
def country_to_continent (lookup : String → Option Continent)
    (country_name : String) : String :=
  match lookup country_name with
  | some c => if country_name = "US" then "usa" else c.lowerName
  | none => "other"

/-- The weekday names in the order `weekday_order` hard-codes them. -/
def weekday_order : List String :=
  ["Monday", "Tuesday", "Wednesday", "Thursday", "Friday", "Saturday",
   "Sunday"]

/-- `flight_date.dt.day_name()`: calendar dates are day ordinals, and
consecutive dates cycle through the seven weekday names. -/
def dayName (d : Nat) : String :=
  weekday_order.getD (d % 7) "Monday"

/-- One row of the grouped weekday-count table of `flight_volume_by_day`. -/
structure VolumeRow where
  departure_day_of_week : String
  flights_count : Nat
deriving DecidableEq, Repr

/-- The rows of `flight_volume_by_day` that survive its airline, status and
region filters (the region column is `country_to_continent` applied to
`arr_country`; region `"world"` applies no region filter). -/
def regionalRows (flights_df : List Row) (lookup : String → Option Continent)
    (airline region : String) : List Row :=
  let flights_copy :=
    (flights_df.filter (fun r => r.airline = airline)) |> operationalRows
  if region ≠ "world" then
    flights_copy.filter
      (fun r => country_to_continent lookup r.arr_country = region)
  else flights_copy

/-- The data computation of
`flight_volume_by_day(flights_df, airline, region)`: count the filtered
rows per weekday name.  The first component is the grouped count table (in
group order); the second is the categorical x-axis order the returned
figure enforces via `categoryorder="array", categoryarray=weekday_order`. -/
def flight_volume_by_day (flights_df : List Row)
    (lookup : String → Option Continent) (airline region : String) :
    List VolumeRow × List String :=
  let rows := regionalRows flights_df lookup airline region
  let grouped := (groupKeys rows (fun r => dayName r.flight_date.dateVal)).map
    (fun d =>
      (⟨d, (rows.filter (fun r => dayName r.flight_date.dateVal = d)).length⟩ :
        VolumeRow))
  (grouped, weekday_order)

/-- The weekday axis order the figure of `flight_volume_by_day` displays:
with `categoryorder="array"` the bars appear in `categoryarray` order,
restricted to the weekdays present in the grouped data. -/
def displayedWeekdays (result : List VolumeRow × List String) : List String :=
  result.2.filter
    (fun d => d ∈ result.1.map (fun v => v.departure_day_of_week))

/-- One row of the delayed-count table of `peak_hour_delays`. -/
structure HourCountRow where
  hour : Nat
  country_group : String
  delayed_flight_count : Nat
deriving DecidableEq, Repr

/-- The rows of `peak_hour_delays` that reach its
`delayed_flights = flights_copy[flights_copy["dep_delay"] > 15]` table:
airline-filtered operational rows with `dep_delay > 15`. -/
def peakDelayedRows (flights_df : List Row) (airline : String) : List Row :=
  ((flights_df.filter (fun r => r.airline = airline)) |> operationalRows).filter
    (fun r => 15 < r.dep_delay)

/-- `country_group`: `"Domestic"` iff `arr_country == "US"`. -/
def countryGroup (r : Row) : String :=
  if r.arr_country = "US" then "Domestic" else "International"

/-- The data computation of `peak_hour_delays(flights_df, airline)`: the
per-`(hour, country_group)` delayed-flight counts and the per-hour total
flight counts.  Rows whose `hour` is `NaN` (unparsable timestamp) are
dropped by pandas `groupby` on the `hour` key. -/
def peak_hour_delays (flights_df : List Row) (airline : String) :
    List HourCountRow × List (Nat × Nat) :=
  let flights_copy :=
    (flights_df.filter (fun r => r.airline = airline)) |> operationalRows
  let delayed_flights := peakDelayedRows flights_df airline
  let withHour := delayed_flights.filterMap
    (fun r => r.hour.map (fun h => (h, countryGroup r)))
  let grouped_counts := (withHour.dedup).map
    (fun k =>
      (⟨k.1, k.2, (withHour.filter (fun p => p = k)).length⟩ : HourCountRow))
  let totalsKeys := (flights_copy.filterMap (fun r => r.hour)).dedup
  let total_flights_by_hour := totalsKeys.map
    (fun h => (h, (flights_copy.filter (fun r => r.hour = some h)).length))
  (grouped_counts, total_flights_by_hour)

/-- A row constructor for concrete test tables. -/
def testRow (date : Nat) (hour : Option Nat)
    (airline dep_iata dep_airport arr_iata arr_airport arr_country : String)
    (dep_delay : ℚ) (flight_status : String) : Row :=
  ⟨.ts date, hour, airline, dep_iata, dep_airport, arr_iata, arr_airport,
    arr_country, dep_delay, flight_status⟩

/-- The scenario table of C5: 100 rows of one airline, all status normal,
80 with `dep_delay = 5` and 20 with `dep_delay = 90`. -/
def dfC5 : List Row :=
  List.replicate 80
    (testRow 1 (some 9) "A" "JFK" "JFK Intl" "LAX" "LAX Intl" "US" 5
      "normal") ++
  List.replicate 20
    (testRow 1 (some 9) "A" "JFK" "JFK Intl" "LAX" "LAX Intl" "US" 90
      "normal")

/-- A two-airport table for the C4 witness: airline `"A"` with mean delay
10 at JFK and 30 at ATL, so the global mean is 20. -/
def dfC4 : List Row :=
  [testRow 1 (some 9) "A" "JFK" "JFK Intl" "LAX" "LAX Intl" "US" 10
      "normal",
   testRow 1 (some 9) "A" "ATL" "ATL Intl" "LAX" "LAX Intl" "US" 30
      "normal"]

/-- Every column of a row except `flight_date`, for stating what
`select_date` leaves untouched. -/
def Row.core (r : Row) :
    Option Nat × String × String × String × String × String × String × ℚ ×
      String :=
  (r.hour, r.airline, r.dep_iata, r.dep_airport, r.arr_iata, r.arr_airport,
    r.arr_country, r.dep_delay, r.flight_status)

/-- A single-row table whose `flight_date` column is still a raw string:
the shape `select_date` receives when the caller has not yet converted the
column to datetime. -/
def rawDateRow : Row :=
  ⟨.raw 5, some 9, "A", "JFK", "JFK Intl", "LAX", "LAX Intl", "US", 10,
    "normal"⟩

/-- A flight with `dep_delay` exactly 15 minutes. -/
def rowD15 : Row :=
  testRow 1 (some 9) "A" "JFK" "JFK Intl" "LAX" "LAX Intl" "US" 15 "normal"

/-- A flight with `dep_delay` 90 minutes. -/
def rowD90 : Row :=
  testRow 1 (some 9) "A" "JFK" "JFK Intl" "LAX" "LAX Intl" "US" 90 "normal"

/-- A concrete country classifier backing for witnesses: resolves `"US"`
and `"FR"`, fails on everything else. -/
def lookupTest : String → Option Continent :=
  fun s =>
    if s = "US" then some .northAmerica
    else if s = "FR" then some .europe
    else none

/-- A four-flight table for the C1 witness: route JFK→LAX flown three
times (once delayed more than 60 minutes) and route ATL→SFO flown once,
so the median flight count is 2 and only JFK→LAX survives the threshold. -/
def dfC1 : List Row :=
  [testRow 1 (some 9) "A" "JFK" "JFK Intl" "LAX" "LAX Intl" "US" 90
      "normal",
   testRow 1 (some 9) "A" "JFK" "JFK Intl" "LAX" "LAX Intl" "US" 5 "normal",
   testRow 1 (some 9) "A" "JFK" "JFK Intl" "LAX" "LAX Intl" "US" 10
      "normal",
   testRow 1 (some 9) "A" "ATL" "ATL Intl" "SFO" "SFO Intl" "US" 5 "normal"]

/-- A two-flight table for the C3 witness: one airline, one departure
airport, delays 5 and 70 minutes. -/
def dfC3 : List Row :=
  [testRow 1 (some 9) "A" "JFK" "JFK Intl" "LAX" "LAX Intl" "US" 5 "normal",
   testRow 1 (some 9) "A" "JFK" "JFK Intl" "LAX" "LAX Intl" "US" 70
      "normal"]

theorem pdGroupBy_group_mem {κ : Type} [DecidableEq κ] (rows : List Row)
    (key : Row → κ) (g : κ × List Row) (hg : g ∈ pdGroupBy rows key) :
    ∃ r ∈ rows, key r = g.1 ∧ r ∈ g.2 := by
  rcases List.mem_map.1 hg with ⟨k, hk, rfl⟩
  rcases List.mem_map.1 (List.mem_dedup.1 hk) with ⟨r, hr, rfl⟩
  exact ⟨r, hr, rfl, List.mem_filter.2 ⟨hr, by simp⟩⟩

theorem dedup_replicate_pos {α : Type} [DecidableEq α] (a : α) :
    ∀ n : Nat, 0 < n → (List.replicate n a).dedup = [a] := by
  intro n
  induction n with
  | zero => intro h; omega
  | succ m ih =>
    intro _
    rw [List.replicate_succ]
    rcases Nat.eq_zero_or_pos m with hm | hm
    · subst hm; simp
    · rw [List.dedup_cons_of_mem]
      · exact ih hm
      · simp [hm.ne.symm]

set_option maxRecDepth 8000 in
/-- Evaluation of `aggregate_delay_metric` on the C5 scenario table,
shared by the C5 theorem and the C5/C9 witnesses. -/
theorem aggregate_dfC5_eval :
    aggregate_delay_metric dfC5 (fun r => r.airline) none =
      [⟨"A", 80, 100, 80, 20⟩] := by
  simp +decide [aggregate_delay_metric, dfC5, testRow, operationalRows,
    pdGroupBy, groupKeys, List.filter_append, ← List.replicate_add,
    dedup_replicate_pos]
  norm_num

/-- C5: for every input table and group-by keys, every group row produced
by `aggregate_delay_metric` satisfies `pct_ontime + pct_delay = 100`
(on-time meaning `dep_delay < 15`); and on the scenario table of 100 rows
of one airline, all status normal, 80 with `dep_delay = 5` and 20 with
`dep_delay = 90`, grouping by airline yields `pct_ontime = 80` and
`pct_delay = 20`. -/
theorem C5_delay_metric_percentages :
    (∀ (κ : Type) [DecidableEq κ] (flights_df : List Row)
        (groupby_col : Row → κ) (arr_iata : Option (List String))
        (row : DelayMetricRow κ),
        row ∈ aggregate_delay_metric flights_df groupby_col arr_iata →
        row.pct_ontime + row.pct_delay = 100) ∧
    aggregate_delay_metric dfC5 (fun r => r.airline) none =
      [⟨"A", 80, 100, 80, 20⟩] := by
  refine ⟨?_, aggregate_dfC5_eval⟩
  intro κ _ flights_df groupby_col arr_iata row hrow
  rcases List.mem_map.1 hrow with ⟨g, _, rfl⟩
  simp only
  ring

/-- Witness for C5: the general percentage identity applied to the group
row the scenario table produces. -/
theorem C5_witness :
    (⟨"A", 80, 100, 80, 20⟩ : DelayMetricRow String).pct_ontime +
      (⟨"A", 80, 100, 80, 20⟩ : DelayMetricRow String).pct_delay = 100 :=
  C5_delay_metric_percentages.1 String dfC5 (fun r => r.airline) none _
    (by rw [aggregate_dfC5_eval]; exact List.mem_singleton_self _)

/-- C9: every group row produced by `aggregate_delay_metric` has
`total_flights ≥ 1`, so `pct_ontime = ontime_count / total_flights * 100`
never divides by zero. -/
theorem C9_total_flights_pos :
    ∀ (κ : Type) [DecidableEq κ] (flights_df : List Row)
      (groupby_col : Row → κ) (arr_iata : Option (List String))
      (row : DelayMetricRow κ),
      row ∈ aggregate_delay_metric flights_df groupby_col arr_iata →
      1 ≤ row.total_flights := by
  intro κ _ flights_df groupby_col arr_iata row hrow
  rcases List.mem_map.1 hrow with ⟨g, hg, rfl⟩
  rcases pdGroupBy_group_mem _ _ _ hg with ⟨r, _, _, hrg⟩
  simpa using List.length_pos_of_mem hrg

/-- Witness for C9: the group row of the C5 scenario table has at least
one flight. -/
theorem C9_witness :
    1 ≤ (⟨"A", 80, 100, 80, 20⟩ : DelayMetricRow String).total_flights :=
  C9_total_flights_pos String dfC5 (fun r => r.airline) none _
    (by rw [aggregate_dfC5_eval]; exact List.mem_singleton_self _)

/-- C2: the bin assignment of `delays_heatmap` maps every delay value into
exactly one of the six bins, each half-open on the left and closed on the
right, and the boundary delays 0, 15, 30, 60, 120 fall in the lower of the
two adjacent bins. -/
theorem C2_delay_bin_partition :
    (∀ d : ℚ,
      (delay_bin d = "Early/On time" ↔ d ≤ 0) ∧
      (delay_bin d = "0–15 min" ↔ 0 < d ∧ d ≤ 15) ∧
      (delay_bin d = "15–30 min" ↔ 15 < d ∧ d ≤ 30) ∧
      (delay_bin d = "30–60 min" ↔ 30 < d ∧ d ≤ 60) ∧
      (delay_bin d = "1–2 hrs" ↔ 60 < d ∧ d ≤ 120) ∧
      (delay_bin d = "2+ hrs" ↔ 120 < d) ∧
      delay_bin d ∈ bin_labels) ∧
    delay_bin 0 = "Early/On time" ∧ delay_bin 15 = "0–15 min" ∧
    delay_bin 30 = "15–30 min" ∧ delay_bin 60 = "30–60 min" ∧
    delay_bin 120 = "1–2 hrs" := by
  constructor
  · intro d
    unfold delay_bin
    split_ifs with h1 h2 h3 h4 h5 <;>
      refine ⟨?_, ?_, ?_, ?_, ?_, ?_, ?_⟩ <;>
      simp [bin_labels] <;>
      first
        | (intros; linarith)
        | (constructor <;> intros <;> linarith)
  · norm_num [delay_bin]

/-- C4: whenever the airline-wide mean delay computed by `relative_delay`
is strictly positive, every per-airport row satisfies
`delay_ratio * globalMean = mean_delay`, and `delay_ratio > 1` holds
exactly when `mean_delay > globalMean`. -/
theorem C4_relative_delay_ratio (flights_df : List Row) (airline : String)
    (hg : 0 < (relative_delay flights_df airline).1) :
    ∀ row ∈ (relative_delay flights_df airline).2,
      row.delay_ratio * (relative_delay flights_df airline).1 =
          row.mean_delay ∧
      (1 < row.delay_ratio ↔
        (relative_delay flights_df airline).1 < row.mean_delay) := by
  intro row hrow
  rcases List.mem_map.1 hrow with ⟨g, _, rfl⟩
  have hg0 : (relative_delay flights_df airline).1 ≠ 0 := ne_of_gt hg
  constructor
  · exact div_mul_cancel₀ _ hg0
  · exact one_lt_div hg

/-- Evaluation of `relative_delay` on the two-airport C4 table, shared by
the C4 theorem witness. -/
theorem relative_delay_dfC4_eval :
    (relative_delay dfC4 "A").1 = 20 ∧
      (relative_delay dfC4 "A").2 =
        [⟨"JFK Intl", 10, 1 / 2⟩, ⟨"ATL Intl", 30, 3 / 2⟩] := by
  constructor <;>
    (simp +decide [relative_delay, dfC4, testRow, operationalRows, meanDelay,
      pdGroupBy, groupKeys, List.filter, List.dedup_cons_of_not_mem,
      List.dedup_cons_of_mem]
     norm_num)

/-- Witness for C4: on the two-airport table the global mean is 20 > 0 and
the JFK row has ratio 1/2 with mean delay 10. -/
theorem C4_witness :
    0 < (relative_delay dfC4 "A").1 ∧
      ((⟨"JFK Intl", 10, 1 / 2⟩ : RelDelayRow).delay_ratio *
          (relative_delay dfC4 "A").1 =
        (⟨"JFK Intl", 10, 1 / 2⟩ : RelDelayRow).mean_delay ∧
      (1 < (⟨"JFK Intl", 10, 1 / 2⟩ : RelDelayRow).delay_ratio ↔
        (relative_delay dfC4 "A").1 <
          (⟨"JFK Intl", 10, 1 / 2⟩ : RelDelayRow).mean_delay)) := by
  have hg : 0 < (relative_delay dfC4 "A").1 := by
    rw [relative_delay_dfC4_eval.1]; norm_num
  refine ⟨hg, C4_relative_delay_ratio dfC4 "A" hg _ ?_⟩
  rw [relative_delay_dfC4_eval.2]
  exact List.mem_cons_self _ _

/-- Counterexample to C7: on a table whose `flight_date` column is a raw
string, the caller's table after `select_date` differs from the table
before the call — the in-place `pd.to_datetime` assignment converted the
column. -/
theorem C7_counterexample : (select_date [rawDateRow] 5 5).1 ≠ [rawDateRow] := by
  simp [select_date, rawDateRow, DateCell.toDatetime]

/-- C7 (amended): `select_date` mutates its input only by normalizing the
`flight_date` column to datetime in place: the denoted dates and every
other column are preserved, and a table whose `flight_date` column is
already datetime is returned to the caller unchanged. -/
theorem C7_select_date_mutation (flights_df : List Row)
    (start_date end_date : Nat) :
    ((select_date flights_df start_date end_date).1.map
        (fun r => r.flight_date.dateVal) =
      flights_df.map (fun r => r.flight_date.dateVal)) ∧
    ((select_date flights_df start_date end_date).1.map Row.core =
      flights_df.map Row.core) ∧
    ((∀ r ∈ flights_df, r.flight_date.isTs) →
      (select_date flights_df start_date end_date).1 = flights_df) := by
  refine ⟨?_, ?_, ?_⟩
  · simp only [select_date, List.map_map]
    refine List.map_congr_left (fun r _ => ?_)
    show (r.flight_date.toDatetime).dateVal = r.flight_date.dateVal
    cases r.flight_date <;> rfl
  · simp only [select_date, List.map_map]
    exact List.map_congr_left (fun r _ => rfl)
  · intro hts
    simp only [select_date]
    have hone : ∀ r ∈ flights_df,
        ({ r with flight_date := r.flight_date.toDatetime } : Row) = r := by
      intro r hr
      have hts2 := hts r hr
      cases hcell : r.flight_date with
      | raw d => rw [hcell] at hts2; simp [DateCell.isTs] at hts2
      | ts d =>
        show ({ r with flight_date := (DateCell.ts d).toDatetime } : Row) = r
        rw [show (DateCell.ts d).toDatetime = DateCell.ts d from rfl, ← hcell]
    rw [List.map_congr_left hone]
    simp

/-- Witness for C7 (amended): a table whose date column is already
datetime comes back from `select_date` unchanged. -/
theorem C7_witness : (select_date [rowD90] 3 3).1 = [rowD90] :=
  (C7_select_date_mutation [rowD90] 3 3).2.2
    (by intro r hr; rw [List.mem_singleton.1 hr]; rfl)

/-- If `country_to_continent` answers `"usa"` the input was `"US"`: the
`"usa"` branch fires only on that input, and no lowercased continent name
equals `"usa"`. -/
theorem country_to_continent_usa (lookup : String → Option Continent)
    (c : String) (h : country_to_continent lookup c = "usa") : c = "US" := by
  by_cases hc : c = "US"
  · exact hc
  · exfalso
    unfold country_to_continent at h
    cases hl : lookup c with
    | none => simp [hl] at h
    | some cont =>
      simp only [hl, if_neg hc] at h
      cases cont <;> simp [Continent.lowerName] at h

/-- C8: the country classifier never escalates a lookup failure (it
answers the sentinel `"other"`), answers the lowercase continent name on
any other resolvable country, answers `"usa"` exactly on input `"US"`
(given that the backing library resolves `"US"`), and consequently
`flight_volume_by_day` with region `"usa"` counts only rows whose
`arr_country` is `"US"`. -/
theorem C8_country_classifier (lookup : String → Option Continent)
    (country_name : String) :
    (lookup country_name = none →
      country_to_continent lookup country_name = "other") ∧
    (∀ c : Continent, lookup country_name = some c → country_name ≠ "US" →
      country_to_continent lookup country_name = c.lowerName) ∧
    ((lookup "US").isSome →
      (country_to_continent lookup country_name = "usa" ↔
        country_name = "US")) ∧
    (∀ (flights_df : List Row) (airline : String) (r : Row),
      r ∈ regionalRows flights_df lookup airline "usa" →
      r.arr_country = "US") := by
  refine ⟨?_, ?_, ?_, ?_⟩
  · intro h; simp [country_to_continent, h]
  · intro c hc hne; simp [country_to_continent, hc, hne]
  · intro hsome
    constructor
    · exact country_to_continent_usa lookup country_name
    · rintro rfl
      rcases Option.isSome_iff_exists.1 hsome with ⟨c, hc⟩
      simp [country_to_continent, hc]
  · intro flights_df airline r hr
    have : country_to_continent lookup r.arr_country = "usa" := by
      unfold regionalRows at hr
      rw [if_pos (by decide)] at hr
      simpa using (List.mem_filter.1 hr).2
    exact country_to_continent_usa lookup _ this

/-- Witness for C8: with a concrete backing lookup that resolves `"US"`
and `"FR"`, the classifier answers `"europe"` for France, `"other"` for an
unresolvable code, and `"usa"` only for `"US"`. -/
theorem C8_witness :
    country_to_continent lookupTest "FR" = "europe" ∧
    country_to_continent lookupTest "XX" = "other" ∧
    (country_to_continent lookupTest "FR" = "usa" ↔ "FR" = "US") ∧
    (country_to_continent lookupTest "US" = "usa" ↔ "US" = "US") := by
  refine ⟨?_, ?_, ?_, ?_⟩
  · exact (C8_country_classifier lookupTest "FR").2.1 .europe (by decide)
      (by decide)
  · exact (C8_country_classifier lookupTest "XX").1 (by decide)
  · exact (C8_country_classifier lookupTest "FR").2.2.1 (by decide)
  · exact (C8_country_classifier lookupTest "US").2.2.1 (by decide)

/-- C10: the two delay classifications disagree at exactly 15 minutes. A
15-minute departure delay is not on-time for `aggregate_delay_metric`
(`dep_delay < 15` fails, so the single-row table yields
`pct_delay = 100`), yet `peak_hour_delays` never counts such a row as
delayed (its filter `dep_delay > 15` admits only strictly larger delays,
so the delayed-count table of the same row is empty). -/
theorem C10_boundary_15_disagreement :
    (∀ (flights_df : List Row) (airline : String) (r : Row),
      r ∈ peakDelayedRows flights_df airline → 15 < r.dep_delay) ∧
    aggregate_delay_metric [rowD15] (fun r => r.airline) none =
      [⟨"A", 0, 1, 0, 100⟩] ∧
    (peak_hour_delays [rowD15] "A").1 = [] := by
  refine ⟨?_, ?_, ?_⟩
  · intro flights_df airline r hr
    simpa using (List.mem_filter.1 hr).2
  · simp +decide [aggregate_delay_metric, rowD15, testRow, operationalRows,
      pdGroupBy, groupKeys, List.filter]
  · simp +decide [peak_hour_delays, peakDelayedRows, rowD15, testRow,
      operationalRows, List.filter]

/-- Witness for C10: a 90-minute delay does reach the delayed-flights
table of `peak_hour_delays`, and the general bound applies to it. -/
theorem C10_witness : 15 < rowD90.dep_delay :=
  C10_boundary_15_disagreement.1 [rowD90] "A" rowD90
    (by simp +decide [peakDelayedRows, operationalRows, rowD90, testRow,
      List.filter])

theorem delay_bin_mem (d : ℚ) : delay_bin d ∈ bin_labels := by
  unfold delay_bin bin_labels
  split_ifs <;> simp

theorem list_sum_map_div {α : Type} (f : α → ℚ) (c : ℚ) :
    ∀ l : List α, (l.map (fun x => f x / c)).sum = (l.map f).sum / c := by
  intro l
  induction l with
  | nil => simp
  | cons a t ih => simp [ih, add_div]

/-- The six bin counts of a list of rows sum to the number of rows: the
bins partition the delay axis. -/
theorem sum_bin_counts : ∀ rows : List Row,
    (bin_labels.map (fun lbl =>
        ((rows.filter (fun r => delay_bin r.dep_delay = lbl)).length : ℚ))).sum
      = (rows.length : ℚ) := by
  intro rows
  induction rows with
  | nil => simp [bin_labels]
  | cons a t ih =>
    have hmem := delay_bin_mem a.dep_delay
    simp only [bin_labels, List.mem_cons, List.not_mem_nil, or_false] at hmem
    simp only [bin_labels, List.map_cons, List.map_nil, List.sum_cons,
      List.sum_nil, List.filter_cons, List.length_cons] at ih ⊢
    rcases hmem with h | h | h | h | h | h <;>
      simp [h] <;> push_cast <;> linarith [ih]

/-- C3: every row of the proportion matrix of `delays_heatmap` carries all
six bin labels as columns in the fixed bin order (empty bins present with
value 0), and its six fractions sum to 1. -/
theorem C3_heatmap_row_sums (flights_df : List Row) (var : Row → String)
    (airline : String) :
    ∀ hrow ∈ delays_heatmap flights_df var airline,
      hrow.props.map (fun p => p.1) = bin_labels ∧
      (hrow.props.map (fun p => p.2)).sum = 1 := by
  intro hrow hmem
  unfold delays_heatmap at hmem
  rcases List.mem_map.1 hmem with ⟨v, hv, rfl⟩
  constructor
  · rw [List.map_map, List.map_map]
    show bin_labels.map (fun lbl => lbl) = bin_labels
    simp
  · have hrow0 : ∃ r ∈
        operationalRows (flights_df.filter (fun r => r.airline = airline)),
        var r = v := by
      rcases List.mem_map.1 (List.mem_dedup.1 hv) with ⟨r, hr, rfl⟩
      exact ⟨r, hr, rfl⟩
    rcases hrow0 with ⟨r0, hr0, hvr0⟩
    have hlen : 1 ≤ ((operationalRows
        (flights_df.filter (fun r => r.airline = airline))).filter
          (fun r => var r = v)).length :=
      List.length_pos_of_mem (List.mem_filter.2 ⟨hr0, by simp [hvr0]⟩)
    show (bin_labels.map (fun lbl =>
        ((((operationalRows
            (flights_df.filter (fun r => r.airline = airline))).filter
              (fun r => var r = v)).filter
                (fun r => delay_bin r.dep_delay = lbl)).length : ℚ) /
          (bin_labels.map (fun lbl =>
            ((((operationalRows
                (flights_df.filter (fun r => r.airline = airline))).filter
                  (fun r => var r = v)).filter
                    (fun r => delay_bin r.dep_delay = lbl)).length :
              ℚ))).sum)).sum = 1
    rw [list_sum_map_div, sum_bin_counts]
    exact div_self (by positivity)

/-- Evaluation of `delays_heatmap` on the two-flight C3 table, shared by
the C3 witness. -/
theorem delays_heatmap_dfC3_eval :
    delays_heatmap dfC3 (fun r => r.dep_iata) "A" =
      [⟨"JFK", [("Early/On time", 0), ("0–15 min", 1 / 2),
        ("15–30 min", 0), ("30–60 min", 0), ("1–2 hrs", 1 / 2),
        ("2+ hrs", 0)]⟩] := by
  simp +decide [delays_heatmap, dfC3, testRow, operationalRows, groupKeys,
    bin_labels, delay_bin, List.filter, List.dedup_cons_of_not_mem,
    List.dedup_cons_of_mem]
  norm_num

/-- Witness for C3: the heatmap row of the two-flight table carries the six
bin labels in order and its fractions sum to 1. -/
theorem C3_witness :
    ((⟨"JFK", [("Early/On time", 0), ("0–15 min", 1 / 2),
        ("15–30 min", 0), ("30–60 min", 0), ("1–2 hrs", 1 / 2),
        ("2+ hrs", 0)]⟩ : HeatmapRow).props.map (fun p => p.1) =
      bin_labels) ∧
    (((⟨"JFK", [("Early/On time", 0), ("0–15 min", 1 / 2),
        ("15–30 min", 0), ("30–60 min", 0), ("1–2 hrs", 1 / 2),
        ("2+ hrs", 0)]⟩ : HeatmapRow).props.map (fun p => p.2)).sum = 1) :=
  C3_heatmap_row_sums dfC3 (fun r => r.dep_iata) "A" _
    (by rw [delays_heatmap_dfC3_eval]; exact List.mem_singleton_self _)

theorem dayName_mem (n : Nat) : dayName n ∈ weekday_order := by
  have h : n % 7 < weekday_order.length := by
    have h7 : n % 7 < 7 := Nat.mod_lt _ (by norm_num)
    simpa [weekday_order] using h7
  unfold dayName
  rw [List.getD_eq_getElem?_getD, List.getElem?_eq_getElem h, Option.getD_some]
  exact List.getElem?_mem (List.getElem?_eq_getElem h)

/-- C6: the weekday axis displayed by `flight_volume_by_day` is ordered
Monday through Sunday — it is a sublist of the fixed
`[Monday, ..., Sunday]` list — and it shows exactly the weekdays present in
the grouped count table, whatever order the group keys themselves are
emitted in. -/
theorem C6_weekday_axis_order (flights_df : List Row)
    (lookup : String → Option Continent) (airline region : String) :
    List.Sublist
      (displayedWeekdays
        (flight_volume_by_day flights_df lookup airline region))
      weekday_order ∧
    ∀ d : String,
      d ∈ displayedWeekdays
          (flight_volume_by_day flights_df lookup airline region) ↔
        d ∈ (flight_volume_by_day flights_df lookup airline region).1.map
          (fun vr => vr.departure_day_of_week) := by
  constructor
  · exact List.filter_sublist _
  · intro d
    unfold displayedWeekdays
    rw [List.mem_filter]
    constructor
    · rintro ⟨_, hd⟩
      simpa using hd
    · intro hd
      refine ⟨?_, by simpa using hd⟩
      rcases List.mem_map.1 hd with ⟨vr, hvr, rfl⟩
      unfold flight_volume_by_day at hvr
      rcases List.mem_map.1 hvr with ⟨k, hk, rfl⟩
      rcases List.mem_map.1 (List.mem_dedup.1 hk) with ⟨r, _, rfl⟩
      exact dayName_mem _

theorem getD_mem_of_lt {α : Type} (l : List α) (n : Nat) (d : α)
    (h : n < l.length) : l.getD n d ∈ l := by
  rw [List.getD_eq_getElem?_getD, List.getElem?_eq_getElem h, Option.getD_some]
  exact List.getElem?_mem (List.getElem?_eq_getElem h)

theorem length_takeWhile_ge {α : Type} (p : α → Bool) :
    ∀ (l : List α) (n : Nat), (∀ x ∈ l.take n, p x) →
      min n l.length ≤ (l.takeWhile p).length := by
  intro l
  induction l with
  | nil => intro n _; simp
  | cons a t ih =>
    intro n hp
    cases n with
    | zero => simp
    | succ m =>
      have hpa : p a := hp a (by simp)
      rw [List.takeWhile_cons_of_pos hpa]
      have hm := ih m (fun x hx => hp x (by
        rw [List.take_succ_cons]; exact List.mem_cons_of_mem _ hx))
      simp only [List.length_cons]
      omega

theorem sorted_take_ge {α : Type} (rate : α → ℚ) (d : α) :
    ∀ (l : List α) (n : Nat), l.Pairwise (fun a b => rate b ≤ rate a) →
      n < l.length → ∀ x ∈ l.take (n + 1), rate (l.getD n d) ≤ rate x := by
  intro l
  induction l with
  | nil => intro n _ hn; simp at hn
  | cons a t ih =>
    intro n hs hn x hx
    rw [List.take_succ_cons] at hx
    rcases List.mem_cons.1 hx with rfl | hx
    · cases n with
      | zero => simp
      | succ m =>
        rw [List.getD_cons_succ]
        have hm : m < t.length := by simpa using hn
        exact (List.pairwise_cons.1 hs).1 _ (getD_mem_of_lt t m d hm)
    · cases n with
      | zero => simp at hx
      | succ m =>
        rw [List.getD_cons_succ]
        exact ih m (List.pairwise_cons.1 hs).2 (by simpa using hn) x hx

theorem sorted_dropWhile_lt {α : Type} (rate : α → ℚ) (c : ℚ) :
    ∀ l : List α, l.Pairwise (fun a b => rate b ≤ rate a) →
      ∀ q ∈ l.dropWhile (fun r => c ≤ rate r), rate q < c := by
  intro l
  induction l with
  | nil => simp
  | cons a t ih =>
    intro hs q hq
    by_cases hpa : c ≤ rate a
    · rw [List.dropWhile_cons_of_pos (by simpa using hpa)] at hq
      exact ih (List.pairwise_cons.1 hs).2 q hq
    · rw [List.dropWhile_cons_of_neg (by simpa using hpa)] at hq
      rcases List.mem_cons.1 hq with rfl | hq
      · exact not_le.1 hpa
      · have := (List.pairwise_cons.1 hs).1 q hq
        have := not_le.1 hpa
        linarith

/-- The candidate table of `top_delayed_routes` is sorted descending by
delay rate. -/
theorem sorted_candidates_sorted (flights_df : List Row) (airline : String)
    (domestic : Bool) :
    (sorted_candidates flights_df airline domestic).Pairwise
      (fun a b => b.delay_rate ≤ a.delay_rate) := by
  unfold sorted_candidates
  have h := @List.sorted_mergeSort RouteRow
    (fun a b : RouteRow => decide (b.delay_rate ≤ a.delay_rate))
    (fun a b c hab hbc => by
      simp only [decide_eq_true_eq] at *
      linarith)
    (fun a b => by
      simpa using le_total b.delay_rate a.delay_rate)
    ((route_table flights_df airline domestic).filter
      (fun r => median_flight_count flights_df airline domestic <
        (r.flight_count : ℚ)))
  exact h.imp (fun hab => of_decide_eq_true hab)

/-- C1: every route returned by `top_delayed_routes` has a flight count
strictly above the median flight count of the full filtered+country-scoped
route table; the returned routes are sorted descending by delay rate
(`dep_delay > 60` counting as delayed); and the result is the top 10 by
delay rate with every route tied with the 10th-ranked rate included: a
candidate table of at most 10 routes is returned whole, and otherwise the
result is the prefix of all candidates whose rate reaches the 10th-ranked
rate, every excluded candidate ranking strictly below it. -/
theorem C1_route_ranker (flights_df : List Row) (airline : String)
    (domestic : Bool) :
    (∀ r ∈ top_delayed_routes flights_df airline domestic,
      median_flight_count flights_df airline domestic <
        (r.flight_count : ℚ)) ∧
    (top_delayed_routes flights_df airline domestic).Pairwise
      (fun a b => b.delay_rate ≤ a.delay_rate) ∧
    ((sorted_candidates flights_df airline domestic).length ≤ 10 →
      top_delayed_routes flights_df airline domestic =
        sorted_candidates flights_df airline domestic) ∧
    (10 < (sorted_candidates flights_df airline domestic).length →
      ∃ rest : List RouteRow,
        sorted_candidates flights_df airline domestic =
          top_delayed_routes flights_df airline domestic ++ rest ∧
        10 ≤ (top_delayed_routes flights_df airline domestic).length ∧
        (∀ r ∈ top_delayed_routes flights_df airline domestic,
          ((sorted_candidates flights_df airline domestic).getD 9
            default).delay_rate ≤ r.delay_rate) ∧
        (∀ q ∈ rest,
          q.delay_rate <
            ((sorted_candidates flights_df airline domestic).getD 9
              default).delay_rate)) := by
  have hsorted := sorted_candidates_sorted flights_df airline domestic
  have hsub : List.Sublist (top_delayed_routes flights_df airline domestic)
      (sorted_candidates flights_df airline domestic) := by
    unfold top_delayed_routes nlargest10
    split_ifs with h
    · exact List.Sublist.refl _
    · exact List.takeWhile_sublist _
  refine ⟨?_, ?_, ?_, ?_⟩
  · intro r hr
    have hrs : r ∈ sorted_candidates flights_df airline domestic :=
      hsub.subset hr
    unfold sorted_candidates at hrs
    rw [List.mem_mergeSort] at hrs
    simpa using (List.mem_filter.1 hrs).2
  · exact hsorted.sublist hsub
  · intro h
    unfold top_delayed_routes nlargest10
    rw [if_pos h]
  · intro h
    have hne : ¬ (sorted_candidates flights_df airline domestic).length ≤ 10 :=
      not_le.2 h
    have htw : top_delayed_routes flights_df airline domestic =
        (sorted_candidates flights_df airline domestic).takeWhile
          (fun r =>
            ((sorted_candidates flights_df airline domestic).getD 9
              default).delay_rate ≤ r.delay_rate) := by
      unfold top_delayed_routes nlargest10
      rw [if_neg hne]
    refine ⟨(sorted_candidates flights_df airline domestic).dropWhile
        (fun r =>
          ((sorted_candidates flights_df airline domestic).getD 9
            default).delay_rate ≤ r.delay_rate), ?_, ?_, ?_, ?_⟩
    · rw [htw]
      exact (List.takeWhile_append_dropWhile _ _).symm
    · rw [htw]
      have h9 : 9 < (sorted_candidates flights_df airline domestic).length :=
        by omega
      have hten := sorted_take_ge (fun r : RouteRow => r.delay_rate) default
        (sorted_candidates flights_df airline domestic) 9 hsorted h9
      have hall : ∀ x ∈ (sorted_candidates flights_df airline domestic).take
          10, (fun r : RouteRow =>
            decide (((sorted_candidates flights_df airline
              domestic).getD 9 default).delay_rate ≤ r.delay_rate)) x := by
        intro x hx
        exact decide_eq_true (hten x hx)
      have := length_takeWhile_ge _
        (sorted_candidates flights_df airline domestic) 10 hall
      omega
    · intro r hr
      rw [htw] at hr
      simpa using List.mem_takeWhile_imp hr
    · exact sorted_dropWhile_lt (fun r : RouteRow => r.delay_rate) _
        (sorted_candidates flights_df airline domestic) hsorted

theorem mergeSort_pair {α : Type} (le : α → α → Bool) (a b : α) :
    [a, b].mergeSort le = if le a b then [a, b] else [b, a] := by
  rw [List.mergeSort]
  simp [List.merge, List.splitInTwo]

/-- Evaluation of the grouped route table on the four-flight C1 table. -/
theorem route_table_dfC1_eval :
    route_table dfC1 "A" true =
      [⟨"JFK", "JFK Intl", "LAX", "LAX Intl", 3, 1, 1 / 3⟩,
       ⟨"ATL", "ATL Intl", "SFO", "SFO Intl", 1, 0, 0⟩] := by
  simp +decide [route_table, routeRows, dfC1, testRow, operationalRows,
    pdGroupBy, groupKeys, List.filter, List.dedup_cons_of_not_mem,
    List.dedup_cons_of_mem]

/-- The median flight count of the C1 table: the median of `[3, 1]`. -/
theorem median_dfC1_eval : median_flight_count dfC1 "A" true = 2 := by
  rw [median_flight_count, route_table_dfC1_eval]
  simp [pdMedian, mergeSort_pair]
  norm_num

/-- The candidate table of the C1 table: only JFK→LAX beats the median. -/
theorem sorted_candidates_dfC1_eval :
    sorted_candidates dfC1 "A" true =
      [⟨"JFK", "JFK Intl", "LAX", "LAX Intl", 3, 1, 1 / 3⟩] := by
  unfold sorted_candidates
  rw [median_dfC1_eval, route_table_dfC1_eval]
  norm_num [List.filter]

/-- The ranked output on the C1 table. -/
theorem top_dfC1_eval :
    top_delayed_routes dfC1 "A" true =
      [⟨"JFK", "JFK Intl", "LAX", "LAX Intl", 3, 1, 1 / 3⟩] := by
  unfold top_delayed_routes nlargest10
  rw [sorted_candidates_dfC1_eval]
  simp

/-- Witness for C1: on the four-flight table the returned JFK→LAX route
beats the median flight count 2, and the candidate table (of length 1) is
returned whole. -/
theorem C1_witness :
    median_flight_count dfC1 "A" true <
      ((⟨"JFK", "JFK Intl", "LAX", "LAX Intl", 3, 1, 1 / 3⟩ :
        RouteRow).flight_count : ℚ) ∧
    top_delayed_routes dfC1 "A" true = sorted_candidates dfC1 "A" true :=
  ⟨(C1_route_ranker dfC1 "A" true).1 _
      (by rw [top_dfC1_eval]; exact List.mem_singleton_self _),
   (C1_route_ranker dfC1 "A" true).2.2.1
      (by rw [sorted_candidates_dfC1_eval]; norm_num)⟩
